import Mathlib

/-!
A shallow embedding of the CERTopedia request handlers
(`lambda/handler.js`, the data-API handler, and their shared helpers),
with theorems checking the natural-language specification against it.

Modelling conventions:
  * JavaScript strings are Lean `String`s; `toLowerCase` is `String.toLower`
    and `includes` is substring containment on the character lists.
  * A query parameter read with `URLSearchParams.get` is `Option String`
    (`none` for an absent parameter).  A JavaScript truthiness test on such
    a value (`if (filters.search)`) is `some s` with `s ≠ ""`.
  * `Date.now()` is an abstract `Nat` timestamp in milliseconds; the
    filesystem is an oracle `String → Option Buf` from the path used by the
    code to the file bytes (`none` when `readFileSync` throws).
  * `Buffer.toString()` / `Buffer.toString(base64)` are abstract encoders
    passed as parameters `utf8 b64 : Buf → String`.
  * A JavaScript object used as a header map is a `List (String × String)`
    in literal order; lookup (`hget`) is last-binding-wins, matching the
    semantics of object spread where a later key overrides an earlier one.
  * JSON bodies of the data API are kept structural (an `ApiBody`
    inductive) rather than serialized text.
  * The platform event carries an optional `requestContext`: every handler
    destructures the event inside its `try` block and reads
    `requestContext.http.method`, which throws a `TypeError` when the
    event has no `requestContext`.  An event with `requestContext = none`
    therefore reaches the router-boundary `catch` branch, which is
    embedded explicitly (in the static handler its 500 response has no
    CORS headers, because `corsHeaders` is a `const` scoped inside the
    `try` block).
-/

namespace CERTopedia

/-- `pgpKey` object of a record: `{available, keyId?, fingerprint?}`. -/
structure Pgp where
  available : Bool
  keyId : Option String := none
  fingerprint : Option String := none
deriving DecidableEq, Repr

/-- One CERT record, the element shape of `data/certs.json`. -/
structure Cert where
  country : String
  name : String
  fullName : String
  website : String := ""
  emergencyContact : String := ""
  email : String := ""
  established : Nat := 0
  description : String := ""
  sector : String := ""
  verified : Bool := true
  lastUpdated : String := ""
  pgpKey : Option Pgp := none
deriving DecidableEq, Repr

/-- The parsed query parameters of the data API (`filters` object built from
`queryParams.get(...)`, each `null` or a string). -/
structure Filters where
  search : Option String := none
  sector : Option String := none
  country : Option String := none
  pgp : Option String := none
deriving DecidableEq, Repr

/-- JavaScript `toLowerCase` (character-wise, as in `String.toLower`, but
structurally recursive so that concrete instances evaluate in the kernel). -/
def strToLower (s : String) : String :=
  String.mk (s.toList.map Char.toLower)

/-- `pre` is a prefix of `s` (JavaScript-visible `startsWith`; character-list
form of `String.startsWith`). -/
def strStartsWith (s pre : String) : Bool :=
  pre.toList.isPrefixOf s.toList

/-- Split a character list at a separator character. -/
def splitChar (sep : Char) : List Char → List (List Char)
  | [] => [[]]
  | c :: rest =>
      match splitChar sep rest with
      | [] => [[]]
      | h :: t => if c = sep then [] :: h :: t else (c :: h) :: t

/-- `s.split` on `/` (character-list form of `String.splitOn "/"`). -/
def splitOnSlash (s : String) : List String :=
  (splitChar '/' s.toList).map String.mk

/-- Substring test on character lists: JavaScript `hay.includes(needle)`. -/
def subListOf (needle : List Char) : List Char → Bool
  | [] => needle.isEmpty
  | c :: rest => needle.isPrefixOf (c :: rest) || subListOf needle rest

/-- `hay.includes(needle)` on strings. -/
def strContains (hay needle : String) : Bool :=
  subListOf needle.toList hay.toList

/-- The search predicate of `filterCerts`: some of country, name, fullName,
sector, description contains the lowercased term (the term is already
lowercased by the caller, each field is lowercased here, as in the source). -/
def matchesSearch (searchTerm : String) (c : Cert) : Bool :=
  let t := strToLower searchTerm
  strContains (strToLower c.country) t ||
  strContains (strToLower c.name) t ||
  strContains (strToLower c.fullName) t ||
  strContains (strToLower c.sector) t ||
  strContains (strToLower c.description) t

/-- `cert.pgpKey && cert.pgpKey.available === true`. -/
def pgpAvailable (c : Cert) : Bool :=
  match c.pgpKey with
  | some p => p.available
  | none => false

/-- The `if (filters.search) { ... }` block of `filterCerts`. -/
def searchStage (f : Filters) (l : List Cert) : List Cert :=
  match f.search with
  | some s => if s = "" then l else l.filter (fun c => matchesSearch s c)
  | none => l

/-- The `if (filters.sector && filters.sector !== all)` block. -/
def sectorStage (f : Filters) (l : List Cert) : List Cert :=
  match f.sector with
  | some s =>
      if s = "" ∨ s = "all" then l
      else l.filter (fun c => strToLower c.sector == strToLower s)
  | none => l

/-- The `if (filters.country)` block. -/
def countryStage (f : Filters) (l : List Cert) : List Cert :=
  match f.country with
  | some s =>
      if s = "" then l
      else l.filter (fun c => strToLower c.country == strToLower s)
  | none => l

/-- The `if (filters.pgp === true)` block. -/
def pgpStage (f : Filters) (l : List Cert) : List Cert :=
  if f.pgp = some "true" then l.filter (fun c => pgpAvailable c) else l

/-- `filterCerts(certs, filters)` of the data-API handler: the four filter
blocks applied in source order to a copy of the input array. -/
def filterCerts (certs : List Cert) (f : Filters) : List Cert :=
  pgpStage f (countryStage f (sectorStage f (searchStage f certs)))

/-- A record fixture with the fields the filters look at. -/
def mkCert (country name fullName sector description : String)
    (pgp : Option Pgp) : Cert :=
  { country := country, name := name, fullName := fullName,
    website := "https://example.org", emergencyContact := "+1-000",
    email := "contact@example.org", established := 2000,
    description := description, sector := sector, verified := true,
    lastUpdated := "2024-01-01", pgpKey := pgp }

/-- The "Canada" record of the worked example (sector Government). -/
def canadaCert : Cert :=
  mkCert "Canada" "CCCS" "Canadian Centre for Cyber Security" "Government"
    "National CERT of Canada" (some { available := true, keyId := some "KEY1" })

/-- The "Japan" record of the worked example (sector National). -/
def japanCert : Cert :=
  mkCert "Japan" "JPCERT" "JPCERT Coordination Center" "National"
    "National CERT of Japan" (some { available := false })

/-- The `http` object of a Lambda event's `requestContext`. -/
structure HttpCtx where
  method : String
deriving DecidableEq, Repr

/-- A Lambda event as the handlers read it: `requestContext` is optional —
reading `requestContext.http.method` throws when it is absent, which is
how the router-boundary `catch` branches are reached. -/
structure Event where
  requestContext : Option HttpCtx
  rawPath : String := ""
deriving DecidableEq, Repr

/-! ### Header maps -/

/-- Lookup in a header list with the override semantics of object spread:
the last binding of a key wins. -/
def hget (hs : List (String × String)) (k : String) : Option String :=
  hs.foldl (fun acc p => if p.1 == k then some p.2 else acc) none

/-! ### TTL caches

`lambda/handler.js` keeps a `Map` from file path to `{content, timestamp}`
with a 5-minute TTL; the data API keeps a single `certData`/`certDataTimestamp`
pair with a 10-minute TTL.  Both are modelled with explicit state passing. -/

/-- File bytes (a Node `Buffer`). -/
abbrev Buf := List Nat

/-- A static-cache entry `{content, timestamp}`. -/
structure CEntry where
  content : Buf
  timestamp : Nat
deriving DecidableEq, Repr

/-- The static-file cache, a `Map` keyed by file path. -/
abbrev SCache := List (String × CEntry)

/-- `cache.get(filePath)`. -/
def mapGet (m : SCache) (k : String) : Option CEntry :=
  (List.find? (fun p => p.1 == k) m).map (fun p => p.2)

/-- `cache.set(filePath, entry)`: replaces an existing binding, else appends. -/
def mapSet (m : SCache) (k : String) (e : CEntry) : SCache :=
  if (List.find? (fun p => p.1 == k) m).isSome then
    m.map (fun p => if p.1 == k then (k, e) else p)
  else m ++ [(k, e)]

/-- The static cache TTL: `CACHE_TTL = 300000` ms (5 minutes) in
`lambda/handler.js`. -/
def staticTTL : Nat := 300000

/-- The dataset cache TTL: `CACHE_TTL = 600000` ms (10 minutes) in the
data-API handler. -/
def dataTTL : Nat := 600000

/-- `getCachedFile(filePath)` of `lambda/handler.js`: serve a cached entry
younger than the TTL, otherwise read from disk, store with the current
timestamp on success, and return `none` (the JS `null`) when the read
fails, leaving the cache unchanged. -/
def getCachedFile (disk : String → Option Buf) (cache : SCache) (now : Nat)
    (filePath : String) : Option Buf × SCache :=
  match mapGet cache filePath with
  | some cached =>
      if now - cached.timestamp < staticTTL then (some cached.content, cache)
      else
        match disk filePath with
        | some content => (some content, mapSet cache filePath ⟨content, now⟩)
        | none => (none, cache)
  | none =>
      match disk filePath with
      | some content => (some content, mapSet cache filePath ⟨content, now⟩)
      | none => (none, cache)

/-- `loadCertData()` of the data-API handler.  State is the pair
`(certData, certDataTimestamp)`; `parse` is the result of reading and
JSON-parsing `data/certs.json` (`none` when either throws).  Returns the
served list and the new state; on failure it returns `[]` and leaves the
cached data untouched. -/
def loadCertData (parse : Option (List Cert)) (certData : Option (List Cert))
    (ts now : Nat) : List Cert × Option (List Cert) × Nat :=
  if certData.isSome ∧ now - ts < dataTTL then (certData.getD [], certData, ts)
  else
    match parse with
    | some d => (d, some d, now)
    | none => ([], certData, ts)

/-! ### Static resolver (`lambda/handler.js`) -/

/-- The `mimeTypes` table. -/
def mimeTypes (ext : String) : Option String :=
  if ext = ".html" then some "text/html"
  else if ext = ".css" then some "text/css"
  else if ext = ".js" then some "application/javascript"
  else if ext = ".json" then some "application/json"
  else if ext = ".png" then some "image/png"
  else if ext = ".jpg" then some "image/jpeg"
  else if ext = ".jpeg" then some "image/jpeg"
  else if ext = ".gif" then some "image/gif"
  else if ext = ".svg" then some "image/svg+xml"
  else if ext = ".ico" then some "image/x-icon"
  else if ext = ".woff" then some "font/woff"
  else if ext = ".woff2" then some "font/woff2"
  else if ext = ".ttf" then some "font/ttf"
  else if ext = ".eot" then some "application/vnd.ms-fontobject"
  else none

/-- `path.extname`: the extension of the final path component from its last
dot, empty when there is no dot or the only dot leads the component. -/
def extname (p : String) : String :=
  let base := (splitOnSlash p).getLastD ""
  match (base.toList.reverse).findIdx? (fun c => c == '.') with
  | none => ""
  | some i =>
      let pos := base.length - 1 - i
      if pos = 0 then "" else String.mk (base.toList.drop pos)

/-- `getContentType(filePath)`: the MIME table over the lowercased
extension, defaulting to `application/octet-stream`. -/
def getContentType (filePath : String) : String :=
  (mimeTypes (strToLower (extname filePath))).getD "application/octet-stream"

/-- The content-security-policy value of `lambda/handler.js`. -/
def cspPolicy : String :=
  "default-src 'self'; script-src 'self' 'unsafe-inline' https://fonts.googleapis.com; style-src 'self' 'unsafe-inline' https://fonts.googleapis.com; font-src 'self' https://fonts.gstatic.com; img-src 'self' data: https:; connect-src 'self'; frame-ancestors 'none';"

/-- The `securityHeaders` object of `lambda/handler.js`, in literal order. -/
def securityHeaders : List (String × String) :=
  [("Strict-Transport-Security", "max-age=31536000; includeSubDomains"),
   ("X-Content-Type-Options", "nosniff"),
   ("X-Frame-Options", "DENY"),
   ("X-XSS-Protection", "1; mode=block"),
   ("Referrer-Policy", "strict-origin-when-cross-origin"),
   ("Content-Security-Policy", cspPolicy)]

/-- One segment step of Node `path.join` normalization. -/
def joinSeg (acc : List String) (seg : String) : List String :=
  if seg = "" ∨ seg = "." then acc
  else if seg = ".." then
    if acc ≠ [] ∧ acc.getLastD "" ≠ ".." then acc.dropLast else acc ++ [seg]
  else acc ++ [seg]

/-- `path.join(a, b)`: concatenate and normalize `.`/`..`/empty segments. -/
def pathJoin (a b : String) : String :=
  String.intercalate "/" ((splitOnSlash a ++ splitOnSlash b).foldl joinSeg [])

/-- The path normalization of `handleStaticFile`: `/` becomes
`/index.html`, the leading slash is stripped, and the result is resolved
under `dist`. -/
def normalizePath (requestedPath : String) : String :=
  let fp := if requestedPath = "/" then "/index.html" else requestedPath
  let fp := if strStartsWith fp "/" then String.mk (fp.toList.drop 1) else fp
  pathJoin "dist" fp

/-- A static response before transport: `isBase64Encoded` is `none` on the
branches where the source object omits the field. -/
structure StaticResponse where
  statusCode : Nat
  headers : List (String × String)
  body : String
  isBase64Encoded : Option Bool := none
deriving DecidableEq, Repr

/-- The textual-content test of `handleStaticFile`. -/
def isTextType (contentType : String) : Bool :=
  strStartsWith contentType "text/" ||
  strContains contentType "javascript" ||
  strContains contentType "json"

/-- The Cache-Control policy of `handleStaticFile`: HTML always
revalidates, JSON is cached one hour, anything else one year immutable. -/
def cacheControlFor (contentType : String) : String :=
  if contentType = "text/html" then "no-cache, no-store, must-revalidate"
  else if contentType = "application/json" then "public, max-age=3600"
  else "public, max-age=31536000, immutable"

/-- `handleStaticFile(requestedPath)`: resolve the normalized path through
the cache, fall back to `dist/index.html`, then to a minimal 404 page. -/
def handleStaticFile (utf8 b64 : Buf → String) (disk : String → Option Buf)
    (cache : SCache) (now : Nat) (requestedPath : String) :
    StaticResponse × SCache :=
  let fp := normalizePath requestedPath
  let res := getCachedFile disk cache now fp
  match res.1 with
  | some content =>
      let contentType := getContentType fp
      let isText := isTextType contentType
      ({ statusCode := 200,
         headers := [("Content-Type", contentType),
                     ("Cache-Control", cacheControlFor contentType)] ++
                    securityHeaders,
         body := if isText then utf8 content else b64 content,
         isBase64Encoded := some (!isText) }, res.2)
  | none =>
      let res2 := getCachedFile disk res.2 now "dist/index.html"
      match res2.1 with
      | some indexContent =>
          ({ statusCode := 200,
             headers := [("Content-Type", "text/html")] ++ securityHeaders ++
                        [("Cache-Control", "no-cache, no-store, must-revalidate")],
             body := utf8 indexContent,
             isBase64Encoded := none }, res2.2)
      | none =>
          ({ statusCode := 404,
             headers := [("Content-Type", "text/html")] ++ securityHeaders,
             body := "<h1>404 - Not Found</h1><p>The requested resource was not found.</p>",
             isBase64Encoded := none }, res2.2)

/-- The `corsHeaders` object of `lambda/handler.js` (same literal in the
data-API handler). -/
def corsHeaders : List (String × String) :=
  [("Access-Control-Allow-Origin", "https://cert.danieloo.com"),
   ("Access-Control-Allow-Headers", "Content-Type, Authorization"),
   ("Access-Control-Allow-Methods", "GET, POST, OPTIONS"),
   ("Access-Control-Max-Age", "86400")]

/-- The static-site request handler of `lambda/handler.js` (its whole
`exports.handler`): reading the method of an event without a
`requestContext` throws, reaching the `catch` branch (lines 176-190),
whose 500 response carries the security headers but no CORS headers —
`corsHeaders` is a `const` declared inside the `try` block and is out of
scope in the `catch`.  A well-formed event is routed as OPTIONS
preflight, GET through `handleStaticFile` with CORS headers merged in,
or 405 otherwise. -/
def staticHandler (utf8 b64 : Buf → String) (disk : String → Option Buf)
    (cache : SCache) (now : Nat) (event : Event) :
    StaticResponse × SCache :=
  match event.requestContext with
  | none =>
      ({ statusCode := 500,
         headers := [("Content-Type", "application/json")] ++ securityHeaders,
         body := "\x7b\"error\":\"Internal Server Error\",\"message\":\"An unexpected error occurred\"\x7d",
         isBase64Encoded := none }, cache)
  | some ctx =>
      let method := ctx.method
      let path := if event.rawPath = "" then "/" else event.rawPath
      if method = "OPTIONS" then
        ({ statusCode := 200, headers := corsHeaders ++ securityHeaders,
           body := "", isBase64Encoded := none }, cache)
      else if method = "GET" then
        let r := handleStaticFile utf8 b64 disk cache now path
        ({ r.1 with headers := r.1.headers ++ corsHeaders }, r.2)
      else
        ({ statusCode := 405,
           headers := [("Content-Type", "application/json")] ++ corsHeaders ++
                      securityHeaders,
           body := "\x7b\"error\":\"Method Not Allowed\",\"message\":\"HTTP method " ++
                   method ++ " is not supported\"\x7d",
           isBase64Encoded := none }, cache)

/-! ### Data API handler (the second Lambda source file) -/

/-- One group of the `/sectors` view. -/
structure SectorGroup where
  name : String
  count : Nat
  certs : List (String × String)
deriving DecidableEq, Repr

/-- The structured body of a data-API response (JSON serialization is
transport and left out of the model). -/
inductive ApiBody where
  | certsData (data : List Cert) (total : Nat) (echo : List (String × String))
  | statsData (totalCerts totalCountries : Nat)
      (sectorsCount : List (String × Nat)) (pgpEnabled : Nat)
      (lastUpdated : Nat) (verificationRate : String)
  | countriesData (data : List (String × Nat))
  | sectorsData (data : List SectorGroup)
  | healthData (status timestamp version : String)
      (certsLoaded : Nat) (lastUpdate : Nat)
  | errorData (error message : String)
  | errorAt (error message timestamp : String)
  | emptyBody
deriving DecidableEq, Repr

/-- A data-API response before transport. -/
structure ApiResponse where
  statusCode : Nat
  headers : List (String × String)
  body : ApiBody
deriving DecidableEq, Repr

/-- The `securityHeaders` object of the data-API handler: only three
entries (no Referrer-Policy, no Content-Security-Policy, no HSTS). -/
def apiSecurityHeaders : List (String × String) :=
  [("X-Content-Type-Options", "nosniff"),
   ("X-Frame-Options", "DENY"),
   ("X-XSS-Protection", "1; mode=block")]

/-- Remove the first occurrence of `pat` from a character list
(JavaScript `String.replace` with a string pattern and empty replacement). -/
def replFirst (pat : List Char) : List Char → List Char
  | [] => []
  | c :: rest =>
      if pat.isPrefixOf (c :: rest) then (c :: rest).drop pat.length
      else c :: replFirst pat rest

/-- `rawPath.replace(slash-api, empty) || slash`. -/
def apiPathOf (rawPath : String) : String :=
  let p := String.mk (replFirst "/api".toList rawPath.toList)
  if p = "" then "/" else p

/-- The `filters` echo of the `/certs` response:
`Object.fromEntries(Object.entries(filters).filter(value !== null))`. -/
def echoFilters (f : Filters) : List (String × String) :=
  (([("search", f.search), ("sector", f.sector),
     ("country", f.country), ("pgp", f.pgp)] :
    List (String × Option String))).filterMap
    (fun p => p.2.map (fun v => (p.1, v)))

/-- Increment the per-sector counter object, first occurrence order. -/
def bumpCount (acc : List (String × Nat)) (k : String) : List (String × Nat) :=
  if (List.find? (fun p => p.1 == k) acc).isSome then
    acc.map (fun p => if p.1 == k then (p.1, p.2 + 1) else p)
  else acc ++ [(k, 1)]

/-- The `sectorsCount` reduce of `getStats`. -/
def sectorsCountOf (certs : List Cert) : List (String × Nat) :=
  certs.foldl (fun acc c => bumpCount acc c.sector) []

/-- The most recent `lastUpdated` over the records, as milliseconds under
an abstract date parser `dateVal` (the `reduce` over `new Date(...)`,
starting from `new Date(0)`). -/
def maxLastUpdated (dateVal : String → Nat) (certs : List Cert) : Nat :=
  certs.foldl (fun m c => max m (dateVal c.lastUpdated)) 0

/-- `getStats(certs)`, with the ISO rendering of the date left as the
millisecond value. -/
def getStats (dateVal : String → Nat) (certs : List Cert) : ApiBody :=
  .statsData certs.length ((certs.map (fun c => c.country)).dedup).length
    (sectorsCountOf certs)
    (certs.filter (fun c => pgpAvailable c)).length
    (maxLastUpdated dateVal certs) "100%"

/-- The `/countries` view: distinct countries, sorted, each with the count
of records having that country. -/
def countriesView (certs : List Cert) : List (String × Nat) :=
  (List.insertionSort (fun a b : String => a ≤ b)
      ((certs.map (fun c => c.country)).dedup)).map
    (fun country =>
      (country, (certs.filter (fun c => c.country == country)).length))

/-- One step of the `/sectors` reduce. -/
def addToSector (acc : List SectorGroup) (c : Cert) : List SectorGroup :=
  if (List.find? (fun g => g.name == c.sector) acc).isSome then
    acc.map (fun g =>
      if g.name == c.sector then
        { g with count := g.count + 1, certs := g.certs ++ [(c.name, c.country)] }
      else g)
  else acc ++ [{ name := c.sector, count := 1, certs := [(c.name, c.country)] }]

/-- The `/sectors` view: groups in first-occurrence order. -/
def sectorsView (certs : List Cert) : List SectorGroup :=
  certs.foldl addToSector []

/-- The routing `switch (apiPath)` of the data-API handler, reached only
with a non-empty record list. -/
def routeApi (dateVal : String → Nat) (nowIso version : String)
    (certs : List Cert) (apiPath : String) (filters : Filters) : ApiResponse :=
  let okHeaders : List (String × String) :=
    [("Content-Type", "application/json"),
     ("Cache-Control", if apiPath = "/health" then "no-cache"
                       else "public, max-age=300")] ++
    corsHeaders ++ apiSecurityHeaders
  if apiPath = "/" ∨ apiPath = "/certs" then
    let filteredCerts := filterCerts certs filters
    { statusCode := 200, headers := okHeaders,
      body := .certsData filteredCerts filteredCerts.length (echoFilters filters) }
  else if apiPath = "/stats" then
    { statusCode := 200, headers := okHeaders, body := getStats dateVal certs }
  else if apiPath = "/countries" then
    { statusCode := 200, headers := okHeaders,
      body := .countriesData (countriesView certs) }
  else if apiPath = "/sectors" then
    { statusCode := 200, headers := okHeaders,
      body := .sectorsData (sectorsView certs) }
  else if apiPath = "/health" then
    { statusCode := 200, headers := okHeaders,
      body := .healthData "healthy" nowIso version certs.length
        (if certs.length > 0 then maxLastUpdated dateVal certs else 0) }
  else
    { statusCode := 404,
      headers := [("Content-Type", "application/json")] ++ corsHeaders ++
                 apiSecurityHeaders,
      body := .errorData "Not Found" ("API endpoint " ++ apiPath ++ " not found") }

/-- The data-API handler: OPTIONS preflight, GET only, dataset load through
`loadCertData` with a 500 when the loaded list is empty, then the route
switch.  Returns the response and the new `(certData, timestamp)` state. -/
def apiHandler (dateVal : String → Nat) (nowIso version : String)
    (parse : Option (List Cert)) (certData : Option (List Cert)) (ts now : Nat)
    (method rawPath : String) (filters : Filters) :
    ApiResponse × Option (List Cert) × Nat :=
  let apiPath := apiPathOf rawPath
  if method = "OPTIONS" then
    ({ statusCode := 200, headers := corsHeaders ++ apiSecurityHeaders,
       body := .emptyBody }, certData, ts)
  else if method ≠ "GET" then
    ({ statusCode := 405,
       headers := [("Content-Type", "application/json")] ++ corsHeaders ++
                  apiSecurityHeaders,
       body := .errorData "Method Not Allowed"
         ("HTTP method " ++ method ++ " is not supported") }, certData, ts)
  else
    let loaded := loadCertData parse certData ts now
    let certs := loaded.1
    if certs.isEmpty then
      ({ statusCode := 500,
         headers := [("Content-Type", "application/json")] ++ corsHeaders ++
                    apiSecurityHeaders,
         body := .errorData "Data Unavailable" "CERT data could not be loaded" },
       loaded.2)
    else
      (routeApi dateVal nowIso version certs apiPath filters, loaded.2)

/-- The data-API `exports.handler` as invoked on an event: an event
without a `requestContext` throws inside the `try`, reaching the `catch`
(which carries both CORS and security headers — in this file, unlike
`lambda/handler.js`, the two header objects are declared before the
`try` block); a well-formed event runs `apiHandler`. -/
def apiLambda (dateVal : String → Nat) (nowIso version : String)
    (parse : Option (List Cert)) (certData : Option (List Cert)) (ts now : Nat)
    (event : Event) (filters : Filters) :
    ApiResponse × Option (List Cert) × Nat :=
  match event.requestContext with
  | none =>
      ({ statusCode := 500,
         headers := [("Content-Type", "application/json")] ++ corsHeaders ++
                    apiSecurityHeaders,
         body := .errorAt "Internal Server Error"
           "An unexpected error occurred" nowIso }, certData, ts)
  | some ctx =>
      apiHandler dateVal nowIso version parse certData ts now ctx.method
        event.rawPath filters

/-! ### Healthcheck handler (`lambda/healthcheck.js`) -/

/-- The `corsHeaders` object of `lambda/healthcheck.js`: wildcard origin. -/
def hcCorsHeaders : List (String × String) :=
  [("Access-Control-Allow-Origin", "*"),
   ("Access-Control-Allow-Headers", "Content-Type"),
   ("Access-Control-Allow-Methods", "GET, OPTIONS")]

/-- The `securityHeaders` object of `lambda/healthcheck.js`: only two
entries. -/
def hcSecurityHeaders : List (String × String) :=
  [("X-Content-Type-Options", "nosniff"),
   ("X-Frame-Options", "DENY")]

/-- Structured body of a healthcheck response (process metadata values are
taken as parameters; the error message recorded for a failed data-file
stat is abstracted into the `dataFile` option). -/
inductive HcBody where
  | health (status timestamp version stage region : String)
      (memUsed memTotal uptime : Nat) (nodeEnv : String)
      (dataFile : Option (Nat × String))
  | methodNotAllowed
  | failure (timestamp errMsg : String)
  | emptyBody
deriving DecidableEq, Repr

/-- A healthcheck response before transport. -/
structure HcResponse where
  statusCode : Nat
  headers : List (String × String)
  body : HcBody
deriving DecidableEq, Repr

/-- `exports.handler` of `lambda/healthcheck.js`.  `dataFile` is
`some (size, mtimeIso)` when `statSync` on `data/certs.json` succeeds and
`none` when it throws; a failed stat degrades the status, and the only
check object that can carry `status: error` is the data-file check, so
the final status code is 200 exactly when the stat succeeded, else 503.
An event without a `requestContext` reaches the `catch` (both header
objects are in scope there). -/
def healthcheckHandler (nowIso version stage region : String)
    (memUsed memTotal uptime : Nat) (nodeEnv errMsg : String)
    (dataFile : Option (Nat × String)) (event : Event) : HcResponse :=
  match event.requestContext with
  | none =>
      { statusCode := 500,
        headers := [("Content-Type", "application/json")] ++ hcCorsHeaders ++
                   hcSecurityHeaders,
        body := .failure nowIso errMsg }
  | some ctx =>
      if ctx.method = "OPTIONS" then
        { statusCode := 200, headers := hcCorsHeaders ++ hcSecurityHeaders,
          body := .emptyBody }
      else if ctx.method ≠ "GET" then
        { statusCode := 405,
          headers := [("Content-Type", "application/json")] ++ hcCorsHeaders ++
                     hcSecurityHeaders,
          body := .methodNotAllowed }
      else
        let status := if dataFile.isSome then "healthy" else "degraded"
        { statusCode := if status = "healthy" then 200 else 503,
          headers := [("Content-Type", "application/json"),
                      ("Cache-Control", "no-cache, no-store, must-revalidate")] ++
                     hcCorsHeaders ++ hcSecurityHeaders,
          body := .health status nowIso version stage region memUsed memTotal
            uptime nodeEnv dataFile }

/-! ### Filter pipeline lemmas -/

lemma mem_searchStage {f : Filters} {l : List Cert} {c : Cert} :
    c ∈ searchStage f l ↔
      c ∈ l ∧ (∀ s, f.search = some s → s ≠ "" → matchesSearch s c = true) := by
  unfold searchStage
  cases hs : f.search with
  | none => simp
  | some s =>
      by_cases he : s = ""
      · subst he; simp
      · simp [he, List.mem_filter]

lemma mem_sectorStage {f : Filters} {l : List Cert} {c : Cert} :
    c ∈ sectorStage f l ↔
      c ∈ l ∧ (∀ s, f.sector = some s → s ≠ "" → s ≠ "all" →
        strToLower c.sector = strToLower s) := by
  unfold sectorStage
  cases hs : f.sector with
  | none => simp
  | some s =>
      by_cases he : s = "" ∨ s = "all"
      · rcases he with he | he <;> subst he <;> simp
      · push_neg at he
        simp [he.1, he.2, List.mem_filter, he]

lemma mem_countryStage {f : Filters} {l : List Cert} {c : Cert} :
    c ∈ countryStage f l ↔
      c ∈ l ∧ (∀ s, f.country = some s → s ≠ "" →
        strToLower c.country = strToLower s) := by
  unfold countryStage
  cases hs : f.country with
  | none => simp
  | some s =>
      by_cases he : s = ""
      · subst he; simp
      · simp [he, List.mem_filter]

lemma mem_pgpStage {f : Filters} {l : List Cert} {c : Cert} :
    c ∈ pgpStage f l ↔
      c ∈ l ∧ (f.pgp = some "true" → pgpAvailable c = true) := by
  unfold pgpStage
  by_cases hp : f.pgp = some "true" <;> simp [hp, List.mem_filter]

lemma searchStage_sublist (f : Filters) (l : List Cert) :
    (searchStage f l).Sublist l := by
  unfold searchStage
  cases f.search with
  | none => exact List.Sublist.refl l
  | some s =>
      by_cases he : s = ""
      · simp [he]
      · simp [he, List.filter_sublist]

lemma sectorStage_sublist (f : Filters) (l : List Cert) :
    (sectorStage f l).Sublist l := by
  unfold sectorStage
  cases f.sector with
  | none => exact List.Sublist.refl l
  | some s =>
      by_cases he : s = "" ∨ s = "all"
      · simp [he]
      · simp [he, List.filter_sublist]

lemma countryStage_sublist (f : Filters) (l : List Cert) :
    (countryStage f l).Sublist l := by
  unfold countryStage
  cases f.country with
  | none => exact List.Sublist.refl l
  | some s =>
      by_cases he : s = ""
      · simp [he]
      · simp [he, List.filter_sublist]

lemma pgpStage_sublist (f : Filters) (l : List Cert) :
    (pgpStage f l).Sublist l := by
  unfold pgpStage
  by_cases hp : f.pgp = some "true" <;> simp [hp, List.filter_sublist]

/-! ### Claim theorems -/

/-- C1: the filter pipeline composes all supplied filters with logical AND
and omitted filters impose no constraint — a record is in the output iff it
is an input record, matches the search term on one of country, name,
fullName, sector, description when a search is supplied, matches the sector
exactly case-insensitively when a sector other than `all` is supplied,
matches the country exactly case-insensitively when a country is supplied,
and has `pgpKey.available = true` when the PGP-only filter is active
(`pgp = "true"`).  A parameter is supplied when present with a non-empty
value.  In particular, on the Canada (Government) and Japan (National)
records, `sector=Government` returns exactly the Canada record, total 1. -/
theorem C1_filter_and_semantics :
    (∀ (certs : List Cert) (f : Filters) (c : Cert),
      c ∈ filterCerts certs f ↔
        c ∈ certs ∧
        (∀ s, f.search = some s → s ≠ "" → matchesSearch s c = true) ∧
        (∀ s, f.sector = some s → s ≠ "" → s ≠ "all" →
          strToLower c.sector = strToLower s) ∧
        (∀ s, f.country = some s → s ≠ "" →
          strToLower c.country = strToLower s) ∧
        (f.pgp = some "true" → pgpAvailable c = true)) ∧
    filterCerts [canadaCert, japanCert] { sector := some "Government" } =
      [canadaCert] ∧
    (filterCerts [canadaCert, japanCert] { sector := some "Government" }).length
      = 1 := by
  refine ⟨fun certs f c => ?_, by decide, by decide⟩
  unfold filterCerts
  rw [mem_pgpStage, mem_countryStage, mem_sectorStage, mem_searchStage]
  tauto

/-- C9: the filter pipeline returns a subsequence of its input list — every
output record is an input record and the relative order is preserved (the
input itself is a pure value, so it is unchanged; the code maps over a fresh
copy of the array). -/
theorem C9_filter_sublist :
    ∀ (certs : List Cert) (f : Filters), (filterCerts certs f).Sublist certs :=
  fun certs f =>
    ((pgpStage_sublist f _).trans
      ((countryStage_sublist f _).trans
        ((sectorStage_sublist f _).trans (searchStage_sublist f certs))))

/-- C10: the PGP-availability filter runs only when the `pgp` parameter is
exactly the string `true`; any other value leaves the otherwise-filtered
set unchanged, and `pgp = "true"` restricts it to records with an available
PGP key. -/
theorem C10_pgp_exact_true :
    (∀ (certs : List Cert) (f : Filters), f.pgp ≠ some "true" →
      filterCerts certs f = filterCerts certs { f with pgp := none }) ∧
    (∀ (certs : List Cert) (f : Filters), f.pgp = some "true" →
      filterCerts certs f =
        (filterCerts certs { f with pgp := none }).filter
          (fun c => pgpAvailable c)) := by
  constructor
  · intro certs f hf
    simp only [filterCerts, pgpStage]
    rw [if_neg hf, if_neg (by simp)]
    rfl
  · intro certs f hf
    simp only [filterCerts, pgpStage]
    rw [if_pos hf, if_neg (by simp)]
    rfl

/-- Witness for C10 at `pgp = "TRUE"`: a value differing only in case does
not trigger the PGP filter. -/
theorem C10_pgp_exact_true_witness :
    filterCerts [canadaCert, japanCert] { pgp := some "TRUE" } =
      filterCerts [canadaCert, japanCert]
        { ({ pgp := some "TRUE" } : Filters) with pgp := none } :=
  C10_pgp_exact_true.1 [canadaCert, japanCert] { pgp := some "TRUE" }
    (by decide)

/-- C2: for every cache key, a get strictly within the TTL of the put that
stored the entry returns the identical stored value; once the TTL has
elapsed the get behaves as a miss and recomputes from the backing source,
on success overwriting the entry with a fresh timestamp (and leaving the
state untouched on failure).  Shown for both instances: the static-asset
cache (`getCachedFile`, TTL 300000 ms = 5 minutes) and the dataset cache
(`loadCertData`, TTL 600000 ms = 10 minutes). -/
theorem C2_ttl_caches :
    (∀ (disk : String → Option Buf) (cache : SCache) (now : Nat)
       (k : String) (v : Buf) (t : Nat),
       mapGet cache k = some ⟨v, t⟩ → now - t < staticTTL →
       getCachedFile disk cache now k = (some v, cache)) ∧
    (∀ (disk : String → Option Buf) (cache : SCache) (now : Nat)
       (k : String) (v : Buf) (t : Nat),
       mapGet cache k = some ⟨v, t⟩ → staticTTL ≤ now - t →
       (∀ c, disk k = some c →
          getCachedFile disk cache now k = (some c, mapSet cache k ⟨c, now⟩)) ∧
       (disk k = none → getCachedFile disk cache now k = (none, cache))) ∧
    (∀ (parse : Option (List Cert)) (d : List Cert) (ts now : Nat),
       now - ts < dataTTL →
       loadCertData parse (some d) ts now = (d, some d, ts)) ∧
    (∀ (parse : Option (List Cert)) (certData : Option (List Cert))
       (ts now : Nat),
       dataTTL ≤ now - ts →
       (∀ d, parse = some d →
          loadCertData parse certData ts now = (d, some d, now)) ∧
       (parse = none → loadCertData parse certData ts now = ([], certData, ts))) := by
  refine ⟨?_, ?_, ?_, ?_⟩
  · intro disk cache now k v t h1 h2
    unfold getCachedFile
    rw [h1]
    simp [h2]
  · intro disk cache now k v t h1 h2
    constructor
    · intro c hc
      unfold getCachedFile
      rw [h1]
      simp [Nat.not_lt.mpr h2, hc]
    · intro hc
      unfold getCachedFile
      rw [h1]
      simp [Nat.not_lt.mpr h2, hc]
  · intro parse d ts now h
    unfold loadCertData
    rw [if_pos ⟨rfl, h⟩]
    rfl
  · intro parse certData ts now h
    constructor
    · intro d hd
      unfold loadCertData
      rw [if_neg (by omega), hd]
    · intro hd
      unfold loadCertData
      rw [if_neg (by omega), hd]

/-- Witness for C2: concrete fresh hits and stale refreshes on both caches. -/
theorem C2_ttl_caches_witness :
    getCachedFile (fun _ => some [2]) [("a", ⟨[1], 0⟩)] 100 "a" =
      (some [1], [("a", ⟨[1], 0⟩)]) ∧
    getCachedFile (fun _ => some [2]) [("a", ⟨[1], 0⟩)] 300000 "a" =
      (some [2], mapSet [("a", ⟨[1], 0⟩)] "a" ⟨[2], 300000⟩) ∧
    loadCertData (some [japanCert]) (some [canadaCert]) 0 100 =
      ([canadaCert], some [canadaCert], 0) ∧
    loadCertData (some [japanCert]) (some [canadaCert]) 0 600000 =
      ([japanCert], some [japanCert], 600000) :=
  ⟨C2_ttl_caches.1 _ _ 100 "a" [1] 0 (by decide) (by decide),
   (C2_ttl_caches.2.1 _ _ 300000 "a" [1] 0 (by decide) (by decide)).1 [2] rfl,
   C2_ttl_caches.2.2.1 _ [canadaCert] 0 100 (by decide),
   (C2_ttl_caches.2.2.2 _ (some [canadaCert]) 0 600000 (by decide)).1
     [japanCert] rfl⟩

/-- C8: the countries view has one entry per distinct `country` value of the
record list (its entry names are a permutation of the deduplicated country
list, so the lengths agree), it is sorted alphabetically, and each entry
carries the count of records with that country. -/
theorem C8_countries_view :
    ∀ certs : List Cert,
      ((countriesView certs).map Prod.fst).Perm
        ((certs.map (fun c => c.country)).dedup) ∧
      List.Sorted (fun a b : String => a ≤ b)
        ((countriesView certs).map Prod.fst) ∧
      (countriesView certs).length =
        ((certs.map (fun c => c.country)).dedup).length ∧
      ∀ e ∈ countriesView certs,
        e.2 = (certs.filter (fun c => c.country == e.1)).length := by
  intro certs
  haveI htot : IsTotal String (fun a b : String => a ≤ b) :=
    ⟨fun a b => le_total a b⟩
  haveI htrans : IsTrans String (fun a b : String => a ≤ b) :=
    ⟨fun _ _ _ hab hbc => le_trans hab hbc⟩
  have hmap : (countriesView certs).map Prod.fst =
      List.insertionSort (fun a b : String => a ≤ b)
        ((certs.map (fun c => c.country)).dedup) := by
    unfold countriesView
    rw [List.map_map]
    exact List.map_id _
  refine ⟨?_, ?_, ?_, ?_⟩
  · rw [hmap]
    exact List.perm_insertionSort _ _
  · rw [hmap]
    exact List.sorted_insertionSort _ _
  · have := congrArg List.length hmap
    simpa using this.trans (List.perm_insertionSort _ _).length_eq
  · intro e he
    unfold countriesView at he
    rcases List.mem_map.mp he with ⟨country, _, rfl⟩
    rfl

/-- Fixture encoder: a stand-in `Buffer.toString()`. -/
def constUtf8 : Buf → String := fun _ => "TEXT"

/-- Fixture encoder: a stand-in `Buffer.toString(base64)`. -/
def constB64 : Buf → String := fun _ => "B64"

/-- A small concrete disk for witnesses. -/
def demoDisk : String → Option Buf := fun q =>
  if q = "dist/style.css" then some [1]
  else if q = "dist/logo.png" then some [2]
  else if q = "dist/app.xyz" then some [3]
  else none

/-- C3: when the normalized file of a static request cannot be resolved,
the resolver falls back to the root document `dist/index.html`: if that
read succeeds the response is 200 with the root document body and
`Cache-Control: no-cache, no-store, must-revalidate`; if it also fails the
response is 404 with the minimal HTML body.  (`handleStaticFile` is a total
function, so no missing file is an unhandled fault.) -/
theorem C3_spa_fallback :
    ∀ (utf8 b64 : Buf → String) (disk : String → Option Buf) (cache : SCache)
      (now : Nat) (p : String),
      (getCachedFile disk cache now (normalizePath p)).1 = none →
      (∀ idx,
        (getCachedFile disk (getCachedFile disk cache now (normalizePath p)).2
            now "dist/index.html").1 = some idx →
        (handleStaticFile utf8 b64 disk cache now p).1.statusCode = 200 ∧
        (handleStaticFile utf8 b64 disk cache now p).1.body = utf8 idx ∧
        hget (handleStaticFile utf8 b64 disk cache now p).1.headers
          "Cache-Control" = some "no-cache, no-store, must-revalidate") ∧
      ((getCachedFile disk (getCachedFile disk cache now (normalizePath p)).2
            now "dist/index.html").1 = none →
        (handleStaticFile utf8 b64 disk cache now p).1.statusCode = 404 ∧
        (handleStaticFile utf8 b64 disk cache now p).1.body =
          "<h1>404 - Not Found</h1><p>The requested resource was not found.</p>") := by
  intro utf8 b64 disk cache now p h
  constructor
  · intro idx hidx
    refine ⟨?_, ?_, ?_⟩ <;>
      simp [handleStaticFile, h, hidx, hget, securityHeaders, cspPolicy]
  · intro h2
    constructor <;> simp [handleStaticFile, h, h2]

/-- Witness for C3: a disk holding only the root document serves it with
status 200 and the non-cacheable header for an unmapped path; an empty disk
yields the 404 page. -/
theorem C3_spa_fallback_witness :
    ((handleStaticFile constUtf8 constB64
        (fun q => if q = "dist/index.html" then some [9] else none) [] 0
        "/missing").1.statusCode = 200 ∧
     (handleStaticFile constUtf8 constB64
        (fun q => if q = "dist/index.html" then some [9] else none) [] 0
        "/missing").1.body = constUtf8 [9] ∧
     hget (handleStaticFile constUtf8 constB64
        (fun q => if q = "dist/index.html" then some [9] else none) [] 0
        "/missing").1.headers "Cache-Control" =
       some "no-cache, no-store, must-revalidate") ∧
    ((handleStaticFile constUtf8 constB64 (fun _ => none) [] 0
        "/missing").1.statusCode = 404 ∧
     (handleStaticFile constUtf8 constB64 (fun _ => none) [] 0
        "/missing").1.body =
       "<h1>404 - Not Found</h1><p>The requested resource was not found.</p>") :=
  ⟨(C3_spa_fallback constUtf8 constB64
      (fun q => if q = "dist/index.html" then some [9] else none) [] 0
      "/missing" (by decide)).1 [9] (by decide),
   (C3_spa_fallback constUtf8 constB64 (fun _ => none) [] 0
      "/missing" (by decide)).2 (by decide)⟩

/-- C6: a successfully resolved static asset whose content type is textual
(`text/*`, or containing "javascript" or "json") is served as the decoded
text with the base64 flag `false`; any other content type is served as the
base64 encoding of the bytes with the flag `true`. -/
theorem C6_body_encoding :
    ∀ (utf8 b64 : Buf → String) (disk : String → Option Buf) (cache : SCache)
      (now : Nat) (p : String) (content : Buf),
      (getCachedFile disk cache now (normalizePath p)).1 = some content →
      (isTextType (getContentType (normalizePath p)) = true →
        (handleStaticFile utf8 b64 disk cache now p).1.body = utf8 content ∧
        (handleStaticFile utf8 b64 disk cache now p).1.isBase64Encoded =
          some false) ∧
      (isTextType (getContentType (normalizePath p)) = false →
        (handleStaticFile utf8 b64 disk cache now p).1.body = b64 content ∧
        (handleStaticFile utf8 b64 disk cache now p).1.isBase64Encoded =
          some true) := by
  intro utf8 b64 disk cache now p content h
  constructor <;> intro ht <;> constructor <;>
    simp [handleStaticFile, h, ht]

/-- Witness for C6: a CSS asset is served as text with the flag `false`, a
PNG as base64 with the flag `true`. -/
theorem C6_body_encoding_witness :
    ((handleStaticFile constUtf8 constB64 demoDisk [] 0
        "/style.css").1.body = constUtf8 [1] ∧
     (handleStaticFile constUtf8 constB64 demoDisk [] 0
        "/style.css").1.isBase64Encoded = some false) ∧
    ((handleStaticFile constUtf8 constB64 demoDisk [] 0
        "/logo.png").1.body = constB64 [2] ∧
     (handleStaticFile constUtf8 constB64 demoDisk [] 0
        "/logo.png").1.isBase64Encoded = some true) :=
  ⟨(C6_body_encoding constUtf8 constB64 demoDisk [] 0 "/style.css" [1]
      (by decide)).1 (by decide),
   (C6_body_encoding constUtf8 constB64 demoDisk [] 0 "/logo.png" [2]
      (by decide)).2 (by decide)⟩

/-- C7: a successfully resolved static asset's Content-Type header comes
from the fixed extension-to-MIME table over the lowercased extension of the
normalized path, defaulting to `application/octet-stream` for unknown
extensions; and its Cache-Control header is chosen by content class —
`text/html` always revalidates, `application/json` is cached one hour,
everything else one year immutable. -/
theorem C7_content_type_cache_control :
    ∀ (utf8 b64 : Buf → String) (disk : String → Option Buf) (cache : SCache)
      (now : Nat) (p : String) (content : Buf),
      (getCachedFile disk cache now (normalizePath p)).1 = some content →
      hget (handleStaticFile utf8 b64 disk cache now p).1.headers
          "Content-Type" =
        some ((mimeTypes (strToLower (extname (normalizePath p)))).getD
          "application/octet-stream") ∧
      hget (handleStaticFile utf8 b64 disk cache now p).1.headers
          "Cache-Control" =
        some (if getContentType (normalizePath p) = "text/html" then
                "no-cache, no-store, must-revalidate"
              else if getContentType (normalizePath p) = "application/json" then
                "public, max-age=3600"
              else "public, max-age=31536000, immutable") := by
  intro utf8 b64 disk cache now p content h
  constructor <;>
    simp [handleStaticFile, h, hget, securityHeaders, cspPolicy,
      getContentType, cacheControlFor]

/-- Witness for C7: the PNG asset gets `image/png` with the one-year
immutable policy; an asset with an unknown extension gets
`application/octet-stream`; the CSS asset gets `text/css`. -/
theorem C7_content_type_cache_control_witness :
    (hget (handleStaticFile constUtf8 constB64 demoDisk [] 0
        "/logo.png").1.headers "Content-Type" = some "image/png" ∧
     hget (handleStaticFile constUtf8 constB64 demoDisk [] 0
        "/logo.png").1.headers "Cache-Control" =
       some "public, max-age=31536000, immutable") ∧
    hget (handleStaticFile constUtf8 constB64 demoDisk [] 0
        "/app.xyz").1.headers "Content-Type" =
      some "application/octet-stream" ∧
    hget (handleStaticFile constUtf8 constB64 demoDisk [] 0
        "/style.css").1.headers "Content-Type" = some "text/css" :=
  ⟨C7_content_type_cache_control constUtf8 constB64 demoDisk [] 0
      "/logo.png" [2] (by decide),
   (C7_content_type_cache_control constUtf8 constB64 demoDisk [] 0
      "/app.xyz" [3] (by decide)).1,
   (C7_content_type_cache_control constUtf8 constB64 demoDisk [] 0
      "/style.css" [1] (by decide)).1⟩

/-! ### Router lemmas -/

lemma routeApi_statusCode (dateVal : String → Nat) (nowIso version : String)
    (certs : List Cert) (apiPath : String) (filters : Filters) :
    (routeApi dateVal nowIso version certs apiPath filters).statusCode = 200 ∨
    (routeApi dateVal nowIso version certs apiPath filters).statusCode = 404 := by
  unfold routeApi
  split_ifs <;> simp

lemma routeApi_headers_shape (dateVal : String → Nat) (nowIso version : String)
    (certs : List Cert) (apiPath : String) (filters : Filters) :
    (∃ cc, (routeApi dateVal nowIso version certs apiPath filters).headers =
      [("Content-Type", "application/json"), ("Cache-Control", cc)] ++
        corsHeaders ++ apiSecurityHeaders) ∨
    (routeApi dateVal nowIso version certs apiPath filters).headers =
      [("Content-Type", "application/json")] ++ corsHeaders ++
        apiSecurityHeaders := by
  unfold routeApi
  split_ifs <;> first
    | exact Or.inl ⟨_, rfl⟩
    | exact Or.inr rfl

lemma handleStaticFile_headers_shape (utf8 b64 : Buf → String)
    (disk : String → Option Buf) (cache : SCache) (now : Nat) (p : String) :
    (∃ ct cc, (handleStaticFile utf8 b64 disk cache now p).1.headers =
      [("Content-Type", ct), ("Cache-Control", cc)] ++ securityHeaders) ∨
    (handleStaticFile utf8 b64 disk cache now p).1.headers =
      [("Content-Type", "text/html")] ++ securityHeaders ++
        [("Cache-Control", "no-cache, no-store, must-revalidate")] ∨
    (handleStaticFile utf8 b64 disk cache now p).1.headers =
      [("Content-Type", "text/html")] ++ securityHeaders := by
  cases h : (getCachedFile disk cache now (normalizePath p)).1 with
  | some content =>
      exact Or.inl ⟨getContentType (normalizePath p),
        cacheControlFor (getContentType (normalizePath p)),
        by simp [handleStaticFile, h]⟩
  | none =>
      cases h2 : (getCachedFile disk
          (getCachedFile disk cache now (normalizePath p)).2 now
          "dist/index.html").1 with
      | some idx =>
          exact Or.inr (Or.inl (by simp [handleStaticFile, h, h2]))
      | none =>
          exact Or.inr (Or.inr (by simp [handleStaticFile, h, h2]))

/-- C4 (amended): a GET to the data API returns 500 with the generic
machine-readable error body exactly when the dataset loader yields an empty
record list; a missing or unparsable backing file with no cached data does
yield that 500; a failed read leaves the cache state unchanged, so a
subsequent request retries the read, and a retry that parses a non-empty
list does not 500.  (The original claim's "500 iff the file is missing or
unparsable" fails: an empty-but-parsable dataset also produces the 500.) -/
theorem C4_data_unavailable_500 :
    (∀ (dateVal : String → Nat) (nowIso version : String)
       (parse certData : Option (List Cert)) (ts now : Nat)
       (rawPath : String) (filters : Filters),
       ((apiHandler dateVal nowIso version parse certData ts now "GET" rawPath
           filters).1.statusCode = 500 ∧
        (apiHandler dateVal nowIso version parse certData ts now "GET" rawPath
           filters).1.body =
          ApiBody.errorData "Data Unavailable" "CERT data could not be loaded")
       ↔ (loadCertData parse certData ts now).1 = []) ∧
    (∀ (dateVal : String → Nat) (nowIso version : String) (ts now : Nat)
       (rawPath : String) (filters : Filters),
       (apiHandler dateVal nowIso version none none ts now "GET" rawPath
          filters).1.statusCode = 500) ∧
    (∀ (parse certData : Option (List Cert)) (ts now : Nat), parse = none →
       (loadCertData parse certData ts now).2 = (certData, ts)) ∧
    (∀ (dateVal : String → Nat) (nowIso version : String) (ts now : Nat)
       (rawPath : String) (filters : Filters) (d : List Cert), d ≠ [] →
       (apiHandler dateVal nowIso version (some d) none ts now "GET" rawPath
          filters).1.statusCode ≠ 500) := by
  refine ⟨?_, ?_, ?_, ?_⟩
  · intro dateVal nowIso version parse certData ts now rawPath filters
    by_cases he : (loadCertData parse certData ts now).1 = []
    · simp [apiHandler, he]
    · have hne : ((loadCertData parse certData ts now).1).isEmpty = false := by
        simpa [List.isEmpty_iff] using he
      simp only [apiHandler, hne]
      rcases routeApi_statusCode dateVal nowIso version
          (loadCertData parse certData ts now).1 (apiPathOf rawPath) filters
        with h | h <;> simp [h, he]
  · intro dateVal nowIso version ts now rawPath filters
    simp [apiHandler, loadCertData]
  · intro parse certData ts now hp
    subst hp
    unfold loadCertData
    split_ifs <;> rfl
  · intro dateVal nowIso version ts now rawPath filters d hd
    have hld : loadCertData (some d) none ts now = (d, some d, now) := by
      unfold loadCertData
      simp
    have hne : ((loadCertData (some d) none ts now).1).isEmpty = false := by
      rw [hld]
      simpa [List.isEmpty_iff] using hd
    simp only [apiHandler, hne]
    rcases routeApi_statusCode dateVal nowIso version
        (loadCertData (some d) none ts now).1 (apiPathOf rawPath) filters
      with h | h <;> simp [h]

/-- Counterexample to C4 as stated: with a backing file that is present and
parsable (it parses to the empty array), a GET to `/api/certs` still
returns 500 with the generic error body — so the 500 is not equivalent to
"file missing or unparsable". -/
theorem C4_counterexample :
    (apiHandler (fun _ => 0) "2024-01-01T00:00:00Z" "1.0" (some []) none 0 0
        "GET" "/api/certs" {}).1.statusCode = 500 ∧
    (apiHandler (fun _ => 0) "2024-01-01T00:00:00Z" "1.0" (some []) none 0 0
        "GET" "/api/certs" {}).1.body =
      ApiBody.errorData "Data Unavailable" "CERT data could not be loaded" ∧
    some ([] : List Cert) ≠ none :=
  ⟨rfl, rfl, by simp⟩

/-- Witness for C4: a missing file with an empty cache gives the 500, and a
failed read leaves the dataset cache state unchanged. -/
theorem C4_data_unavailable_500_witness :
    (apiHandler (fun _ => 0) "2024-01-01T00:00:00Z" "1.0" none none 0 0 "GET"
        "/api/certs" {}).1.statusCode = 500 ∧
    (loadCertData none (some [canadaCert]) 0 700000).2 =
      (some [canadaCert], 0) :=
  ⟨C4_data_unavailable_500.2.1 (fun _ => 0) "2024-01-01T00:00:00Z" "1.0" 0 0
      "/api/certs" {},
   C4_data_unavailable_500.2.2.1 none (some [canadaCert]) 0 700000 rfl⟩

lemma apiHandler_security_cors (dateVal : String → Nat)
    (nowIso version : String) (parse certData : Option (List Cert))
    (ts now : Nat) (method rawPath : String) (filters : Filters) :
    hget (apiHandler dateVal nowIso version parse certData ts now method
        rawPath filters).1.headers "X-Content-Type-Options" =
      some "nosniff" ∧
    hget (apiHandler dateVal nowIso version parse certData ts now method
        rawPath filters).1.headers "X-Frame-Options" = some "DENY" ∧
    hget (apiHandler dateVal nowIso version parse certData ts now method
        rawPath filters).1.headers "X-XSS-Protection" =
      some "1; mode=block" ∧
    hget (apiHandler dateVal nowIso version parse certData ts now method
        rawPath filters).1.headers "Access-Control-Allow-Origin" =
      some "https://cert.danieloo.com" := by
  by_cases hm1 : method = "OPTIONS"
  · subst hm1
    exact ⟨rfl, rfl, rfl, rfl⟩
  · by_cases hm2 : method = "GET"
    · subst hm2
      cases he : ((loadCertData parse certData ts now).1).isEmpty with
      | true =>
          have hresp : (apiHandler dateVal nowIso version parse certData ts
              now "GET" rawPath filters).1.headers =
            [("Content-Type", "application/json")] ++ corsHeaders ++
              apiSecurityHeaders := by
            simp [apiHandler, he]
          rw [hresp]
          exact ⟨rfl, rfl, rfl, rfl⟩
      | false =>
          have hresp : (apiHandler dateVal nowIso version parse certData ts
              now "GET" rawPath filters).1 =
            routeApi dateVal nowIso version
              (loadCertData parse certData ts now).1 (apiPathOf rawPath)
              filters := by
            simp [apiHandler, he]
          rw [hresp]
          rcases routeApi_headers_shape dateVal nowIso version
              (loadCertData parse certData ts now).1 (apiPathOf rawPath)
              filters
            with ⟨cc, hh⟩ | hh <;> rw [hh] <;> exact ⟨rfl, rfl, rfl, rfl⟩
    · unfold apiHandler
      rw [if_neg hm1, if_pos hm2]
      exact ⟨rfl, rfl, rfl, rfl⟩

/-- C5 (amended): every routed response of the static-site handler
(OPTIONS, GET, 405) carries the full fixed security-header set (nosniff,
frame denial, XSS protection, referrer policy, HSTS, and the restrictive
content-security-policy) and CORS headers scoped to the single allowed
origin, with the handler-specific Cache-Control header never overridden
by the merge; the static handler's internal-error (catch) response
carries the full security set but no CORS headers, because `corsHeaders`
is scoped inside the `try` block.  Every response of the data-API
handler, its catch path included, carries nosniff, frame denial and XSS
protection together with the same single-origin CORS headers.  Every
response of the standalone healthcheck handler carries nosniff and frame
denial together with CORS headers whose origin is the wildcard `*`. -/
theorem C5_security_cors_headers :
    (∀ (utf8 b64 : Buf → String) (disk : String → Option Buf) (cache : SCache)
       (now : Nat) (ctx : HttpCtx) (rawPath : String),
       hget (staticHandler utf8 b64 disk cache now
           ⟨some ctx, rawPath⟩).1.headers "X-Content-Type-Options" =
         some "nosniff" ∧
       hget (staticHandler utf8 b64 disk cache now
           ⟨some ctx, rawPath⟩).1.headers "X-Frame-Options" = some "DENY" ∧
       hget (staticHandler utf8 b64 disk cache now
           ⟨some ctx, rawPath⟩).1.headers "X-XSS-Protection" =
         some "1; mode=block" ∧
       hget (staticHandler utf8 b64 disk cache now
           ⟨some ctx, rawPath⟩).1.headers "Referrer-Policy" =
         some "strict-origin-when-cross-origin" ∧
       hget (staticHandler utf8 b64 disk cache now
           ⟨some ctx, rawPath⟩).1.headers "Content-Security-Policy" =
         some cspPolicy ∧
       hget (staticHandler utf8 b64 disk cache now
           ⟨some ctx, rawPath⟩).1.headers "Strict-Transport-Security" =
         some "max-age=31536000; includeSubDomains" ∧
       hget (staticHandler utf8 b64 disk cache now
           ⟨some ctx, rawPath⟩).1.headers "Access-Control-Allow-Origin" =
         some "https://cert.danieloo.com" ∧
       (ctx.method = "GET" →
         hget (staticHandler utf8 b64 disk cache now
             ⟨some ctx, rawPath⟩).1.headers "Cache-Control" =
           hget (handleStaticFile utf8 b64 disk cache now
               (if rawPath = "" then "/" else rawPath)).1.headers
             "Cache-Control")) ∧
    (∀ (utf8 b64 : Buf → String) (disk : String → Option Buf) (cache : SCache)
       (now : Nat) (rawPath : String),
       (staticHandler utf8 b64 disk cache now ⟨none, rawPath⟩).1.statusCode =
         500 ∧
       hget (staticHandler utf8 b64 disk cache now
           ⟨none, rawPath⟩).1.headers "X-Content-Type-Options" =
         some "nosniff" ∧
       hget (staticHandler utf8 b64 disk cache now
           ⟨none, rawPath⟩).1.headers "X-Frame-Options" = some "DENY" ∧
       hget (staticHandler utf8 b64 disk cache now
           ⟨none, rawPath⟩).1.headers "Referrer-Policy" =
         some "strict-origin-when-cross-origin" ∧
       hget (staticHandler utf8 b64 disk cache now
           ⟨none, rawPath⟩).1.headers "Content-Security-Policy" =
         some cspPolicy ∧
       hget (staticHandler utf8 b64 disk cache now
           ⟨none, rawPath⟩).1.headers "Access-Control-Allow-Origin" = none) ∧
    (∀ (dateVal : String → Nat) (nowIso version : String)
       (parse certData : Option (List Cert)) (ts now : Nat) (event : Event)
       (filters : Filters),
       hget (apiLambda dateVal nowIso version parse certData ts now event
           filters).1.headers "X-Content-Type-Options" = some "nosniff" ∧
       hget (apiLambda dateVal nowIso version parse certData ts now event
           filters).1.headers "X-Frame-Options" = some "DENY" ∧
       hget (apiLambda dateVal nowIso version parse certData ts now event
           filters).1.headers "X-XSS-Protection" = some "1; mode=block" ∧
       hget (apiLambda dateVal nowIso version parse certData ts now event
           filters).1.headers "Access-Control-Allow-Origin" =
         some "https://cert.danieloo.com") ∧
    (∀ (nowIso version stage region : String) (memUsed memTotal uptime : Nat)
       (nodeEnv errMsg : String) (dataFile : Option (Nat × String))
       (event : Event),
       hget (healthcheckHandler nowIso version stage region memUsed memTotal
           uptime nodeEnv errMsg dataFile event).headers
         "X-Content-Type-Options" = some "nosniff" ∧
       hget (healthcheckHandler nowIso version stage region memUsed memTotal
           uptime nodeEnv errMsg dataFile event).headers
         "X-Frame-Options" = some "DENY" ∧
       hget (healthcheckHandler nowIso version stage region memUsed memTotal
           uptime nodeEnv errMsg dataFile event).headers
         "Access-Control-Allow-Origin" = some "*") := by
  refine ⟨?_, ?_, ?_, ?_⟩
  · intro utf8 b64 disk cache now ctx rawPath
    obtain ⟨method⟩ := ctx
    by_cases hm1 : method = "OPTIONS"
    · subst hm1
      exact ⟨rfl, rfl, rfl, rfl, rfl, rfl, rfl,
        fun hg => absurd hg (by decide)⟩
    · by_cases hm2 : method = "GET"
      · subst hm2
        have hr : (staticHandler utf8 b64 disk cache now
              ⟨some ⟨"GET"⟩, rawPath⟩).1.headers =
            (handleStaticFile utf8 b64 disk cache now
              (if rawPath = "" then "/" else rawPath)).1.headers ++
              corsHeaders := rfl
        rcases handleStaticFile_headers_shape utf8 b64 disk cache now
            (if rawPath = "" then "/" else rawPath)
          with ⟨ct, cc, hh⟩ | hh | hh <;>
          rw [hr, hh] <;>
          exact ⟨rfl, rfl, rfl, rfl, rfl, rfl, rfl, fun _ => rfl⟩
      · have hr : (staticHandler utf8 b64 disk cache now
              ⟨some ⟨method⟩, rawPath⟩).1.headers =
            [("Content-Type", "application/json")] ++ corsHeaders ++
              securityHeaders := by
          simp only [staticHandler]
          rw [if_neg hm1, if_neg hm2]
        rw [hr]
        exact ⟨rfl, rfl, rfl, rfl, rfl, rfl, rfl, fun hg => absurd hg hm2⟩
  · intro utf8 b64 disk cache now rawPath
    exact ⟨rfl, rfl, rfl, rfl, rfl, rfl⟩
  · intro dateVal nowIso version parse certData ts now event filters
    obtain ⟨rc, rawPath⟩ := event
    cases rc with
    | none => exact ⟨rfl, rfl, rfl, rfl⟩
    | some ctx =>
        exact apiHandler_security_cors dateVal nowIso version parse certData
          ts now ctx.method rawPath filters
  · intro nowIso version stage region memUsed memTotal uptime nodeEnv errMsg
      dataFile event
    obtain ⟨rc, rawPath⟩ := event
    cases rc with
    | none => exact ⟨rfl, rfl, rfl⟩
    | some ctx =>
        obtain ⟨method⟩ := ctx
        by_cases hm1 : method = "OPTIONS"
        · subst hm1
          exact ⟨rfl, rfl, rfl⟩
        · by_cases hm2 : method = "GET"
          · subst hm2
            exact ⟨rfl, rfl, rfl⟩
          · have hr : (healthcheckHandler nowIso version stage region memUsed
                  memTotal uptime nodeEnv errMsg dataFile
                  ⟨some ⟨method⟩, rawPath⟩).headers =
                [("Content-Type", "application/json")] ++ hcCorsHeaders ++
                  hcSecurityHeaders := by
              simp only [healthcheckHandler]
              rw [if_neg hm1, if_pos hm2]
            rw [hr]
            exact ⟨rfl, rfl, rfl⟩

/-- Counterexample to C5 as stated: a 200 from the data-API handler
(`GET /api/stats`) carries neither the referrer-policy nor the
content-security-policy header; the static handler's `catch` response (an
event with no `requestContext`) carries no CORS headers at all; and the
healthcheck handler's CORS origin is the wildcard `*`, not a single
allowed origin. -/
theorem C5_counterexample :
    (hget (apiHandler (fun _ => 0) "2024-01-01T00:00:00Z" "1.0"
        (some [canadaCert]) none 0 0 "GET" "/api/stats" {}).1.headers
      "Content-Security-Policy" = none ∧
     hget (apiHandler (fun _ => 0) "2024-01-01T00:00:00Z" "1.0"
        (some [canadaCert]) none 0 0 "GET" "/api/stats" {}).1.headers
      "Referrer-Policy" = none ∧
     (apiHandler (fun _ => 0) "2024-01-01T00:00:00Z" "1.0"
        (some [canadaCert]) none 0 0 "GET" "/api/stats" {}).1.statusCode =
       200) ∧
    ((staticHandler constUtf8 constB64 (fun _ => none) [] 0
        ⟨none, "/"⟩).1.statusCode = 500 ∧
     hget (staticHandler constUtf8 constB64 (fun _ => none) [] 0
        ⟨none, "/"⟩).1.headers "Access-Control-Allow-Origin" = none) ∧
    hget (healthcheckHandler "2024-01-01T00:00:00Z" "1.0.0" "prod" "eu" 0 0 0
        "production" "err" (some (1, "2024-01-01T00:00:00Z"))
        ⟨some ⟨"GET"⟩, "/"⟩).headers "Access-Control-Allow-Origin" =
      some "*" :=
  ⟨⟨rfl, rfl, rfl⟩, ⟨rfl, rfl⟩, rfl⟩

end CERTopedia
